import Mathlib

/-!
Verification of the deepfake-detector Streamlit front-end.

The definitions below are a shallow embedding of the Python
sources (`src/config.py`, `src/dump_code/app_fixed.py`,
`src/dump_code/app_new.py`).  Probabilities are modelled as rationals,
the HTTP layer as an oracle from requests to outcomes, and the Streamlit
widgets as fields of an output record.
-/

namespace Deepfake

/-! ### Configuration (src/config.py) -/

def API_ENDPOINT : String := "https://e384961c5981.ngrok-free.app"

def API_TIMEOUT : Nat := 180

def HIGH_CONFIDENCE_THRESHOLD : ℚ := 70

def MEDIUM_CONFIDENCE_THRESHOLD : ℚ := 40

/-! ### Label map (app_fixed.py lines 16-34, app_new.py lines 13-31) -/

def LABEL_MAP : Nat → Option String
  | 0 => some "AI_GEN"
  | 1 => some "ANIME_1D"
  | 2 => some "ANIME_2D"
  | 3 => some "VIDEO_GAME"
  | 4 => some "KLING"
  | 5 => some "HIGGSFIELD"
  | 6 => some "WAN"
  | 7 => some "MIDJOURNEY"
  | 8 => some "HAILUO"
  | 9 => some "RAY"
  | 10 => some "VEO"
  | 11 => some "RUNWAY"
  | 12 => some "SORA"
  | 13 => some "CHATGPT"
  | 14 => some "PIKA"
  | 15 => some "HUNYUAN"
  | 16 => some "VIDU"
  | _ => none

/-- Python `LABEL_MAP.get(idx, f"UNKNOWN_{idx}")` from `process_predictions`. -/
def labelFor (idx : Nat) : String :=
  (LABEL_MAP idx).getD ("UNKNOWN_" ++ toString idx)

/-! ### process_predictions (app_fixed.py lines 118-132) -/

/-- One row of the DataFrame built by `process_predictions`:
columns "Label Name" and "Probability (%)". -/
structure Row where
  labelName : String
  probabilityPercent : ℚ
  deriving DecidableEq, Repr

instance : Inhabited Row := ⟨⟨"", 0⟩⟩

/-- Descending comparison on the "Probability (%)" column: row `a` may come
before row `b` when its probability is at least as large. -/
def RowGe (a b : Row) : Prop := b.probabilityPercent ≤ a.probabilityPercent

instance : DecidableRel RowGe := fun a b =>
  inferInstanceAs (Decidable (b.probabilityPercent ≤ a.probabilityPercent))

instance : IsTotal Row RowGe := ⟨fun a b => le_total b.probabilityPercent a.probabilityPercent⟩

instance : IsTrans Row RowGe := ⟨fun _ _ _ hab hbc => le_trans hbc hab⟩

/-- The unsorted rows: for each index `idx`, the label from `LABEL_MAP`
(with the `UNKNOWN_{idx}` fallback) paired with `prob * 100`. -/
def predictionRows (predictions : List ℚ) : List Row :=
  predictions.enum.map (fun ip => ⟨labelFor ip.1, ip.2 * 100⟩)

/-- Embedding of `process_predictions`: build the rows, then
`df.sort_values("Probability (%)", ascending=False)`. -/
def process_predictions (predictions : List ℚ) : List Row :=
  List.insertionSort RowGe (predictionRows predictions)

/-! ### Alert tier (app_fixed.py lines 320-325, app_new.py lines 258-276) -/

inductive AlertTier where
  | high
  | medium
  | low
  deriving DecidableEq, Repr

/-- The alert chosen from the top confidence:
`if confidence > HIGH_CONFIDENCE_THRESHOLD ... elif confidence >
MEDIUM_CONFIDENCE_THRESHOLD ... else ...`. -/
def alertTier (confidence : ℚ) : AlertTier :=
  if confidence > HIGH_CONFIDENCE_THRESHOLD then .high
  else if confidence > MEDIUM_CONFIDENCE_THRESHOLD then .medium
  else .low

/-! ### HTTP layer and send_video_to_api (app_fixed.py lines 89-116) -/

/-- The uploaded (or downloaded) video file, as used by
`send_video_to_api`: name, declared media type, and contents. -/
structure VideoFile where
  name : String
  type : String
  content : List Nat
  deriving DecidableEq, Repr

instance : Inhabited VideoFile := ⟨⟨"", "", []⟩⟩

/-- The JSON body of a 200 reply; `predictions` is `none` when the
`predictions` field is absent from the object. -/
structure ApiResponse where
  predictions : Option (List ℚ)
  deriving DecidableEq, Repr

/-- The single outbound POST built by `send_video_to_api`. -/
structure HttpRequest where
  url : String
  fileField : String
  fileName : String
  timeoutSecs : Nat
  deriving DecidableEq, Repr

/-- What the network does with a request: an HTTP reply carrying a status
code and (when the body parses as JSON) the parsed body, or one of the
exception kinds `requests` can raise. -/
inductive NetworkOutcome where
  | reply (statusCode : Nat) (body : Option ApiResponse)
  | connectionError
  | timeout
  | otherFailure
  deriving DecidableEq, Repr

/-- Result of `send_video_to_api`: the returned value (`None` on any
failure), the `st.error` messages shown, and the requests issued. -/
structure SendResult where
  response : Option ApiResponse
  errors : List String
  requests : List HttpRequest
  deriving DecidableEq, Repr

def connectionErrorMsg : String :=
  "Could not connect to the detection service. Please try again later."

def timeoutErrorMsg : String :=
  "Request timed out. Please try again with a smaller video."

def unexpectedErrorMsg : String :=
  "An error occurred while processing your video."

def serviceErrorMsg (code : Nat) : String :=
  "Service Error: " ++ toString code

/-- The one request `send_video_to_api` builds: POST to
`f"{API_ENDPOINT}/detect"` with multipart field `file` carrying the
file name, and `timeout=API_TIMEOUT`. -/
def apiRequest (vf : VideoFile) : HttpRequest :=
  ⟨API_ENDPOINT ++ "/detect", "file", vf.name, API_TIMEOUT⟩

/-- Embedding of `send_video_to_api` (app_fixed.py lines 89-116): one POST; on
`status_code == 200` return the parsed JSON (an unparseable body raises in
`.json()` and lands in the generic `except Exception` arm), on any other
status show `Service Error: {code}`; each exception kind shows its own
message; every failure returns `None`. -/
def send_video_to_api (net : HttpRequest → NetworkOutcome) (vf : VideoFile) :
    SendResult :=
  let req : HttpRequest := apiRequest vf
  match net req with
  | .reply code body =>
    if code = 200 then
      match body with
      | some r => ⟨some r, [], [req]⟩
      | none => ⟨none, [unexpectedErrorMsg], [req]⟩
    else ⟨none, [serviceErrorMsg code], [req]⟩
  | .connectionError => ⟨none, [connectionErrorMsg], [req]⟩
  | .timeout => ⟨none, [timeoutErrorMsg], [req]⟩
  | .otherFailure => ⟨none, [unexpectedErrorMsg], [req]⟩

/-! ### Filesystem model and cleanup_temp_files (app_fixed.py lines 66-75) -/

/-- The slice of the filesystem the cleanup code touches: which regular
files and which directories exist. -/
structure FS where
  files : List String
  dirs : List String
  deriving DecidableEq, Repr

/-- Model of `os.path.dirname`: everything before the last slash (empty when the
path has no slash). -/
def dirname (p : String) : String :=
  ⟨((p.data.reverse.dropWhile (fun c => c ≠ '/')).drop 1).reverse⟩

/-- Whether `os.listdir(d)` is nonempty: some existing file lives directly in `d`. -/
def dirNonempty (fs : FS) (d : String) : Bool :=
  fs.files.any (fun f => dirname f = d)

/-- Model of `os.remove`: raises `FileNotFoundError` when the path does not exist. -/
def osRemove (fs : FS) (p : String) : Except String FS :=
  if p ∈ fs.files then .ok ⟨fs.files.erase p, fs.dirs⟩
  else .error "FileNotFoundError"

/-- Model of `os.rmdir`: raises when the directory is missing or nonempty. -/
def osRmdir (fs : FS) (d : String) : Except String FS :=
  if d ∈ fs.dirs ∧ ¬ dirNonempty fs d = true then .ok ⟨fs.files, fs.dirs.erase d⟩
  else .error "OSError"

/-- The body of `cleanup_temp_files` before its `except: pass` wrapper:
if the path is truthy and exists, remove it, then remove its directory
when that directory exists and `os.listdir` returns an empty list. -/
def cleanupAttempt (fs : FS) (filePath : String) : Except String FS :=
  if filePath ≠ "" ∧ filePath ∈ fs.files then
    match osRemove fs filePath with
    | .error e => .error e
    | .ok fs1 =>
      if dirname filePath ∈ fs1.dirs ∧ ¬ dirNonempty fs1 (dirname filePath) = true then
        osRmdir fs1 (dirname filePath)
      else .ok fs1
  else .ok fs

/-- Embedding of `cleanup_temp_files` (app_fixed.py lines 66-75): the attempt wrapped in
`try: ... except: pass`, so it is total and leaves the filesystem as the
attempt left it (unchanged if the attempt raised before mutating). -/
def cleanup_temp_files (fs : FS) (filePath : String) : FS :=
  match cleanupAttempt fs filePath with
  | .ok fs2 => fs2
  | .error _ => fs

/-! ### is_valid_instagram_url (app_fixed.py lines 36-43) -/

/-- Drop a literal prefix from a character list, or fail. -/
def dropLit : List Char → List Char → Option (List Char)
  | [], cs => some cs
  | _ :: _, [] => none
  | p :: ps, c :: cs => if c = p then dropLit ps cs else none

/-- The character class `[A-Za-z0-9_-]` of the shortcode. -/
def isShortcodeChar (c : Char) : Bool :=
  c.isAlpha || c.isDigit || c = '_' || c = '-'

/-- Match the anchored prefix `https?://`, returning the remainder.  The
optional `s` is tried greedily and retried without on failure, exactly as
regex backtracking does. -/
def dropScheme (cs : List Char) : Option (List Char) :=
  match dropLit "http".data cs with
  | none => none
  | some cs1 =>
    match dropLit ['s'] cs1 with
    | some cs2 =>
      match dropLit "://".data cs2 with
      | some r => some r
      | none => dropLit "://".data cs1
    | none => dropLit "://".data cs1

/-- After the scheme and optional `www.`: match
`instagram\.com/<kind>/[A-Za-z0-9_-]+/?` as a prefix (`re.match` only
anchors at the start, so one shortcode character suffices). -/
def matchHostPath (kind : String) (cs : List Char) : Bool :=
  match dropLit ("instagram.com/" ++ kind ++ "/").data cs with
  | some (c :: _) => isShortcodeChar c
  | _ => false

/-- Match one of the three patterns of `is_valid_instagram_url` against
the whole URL, with the `(www\.)?` group tried both ways. -/
def matchInstagramPattern (kind : String) (url : String) : Bool :=
  match dropScheme url.data with
  | none => false
  | some cs =>
    (match dropLit "www.".data cs with
     | some cs2 => matchHostPath kind cs2
     | none => false)
    || matchHostPath kind cs

/-- Embedding of `is_valid_instagram_url` (app_fixed.py lines 36-43): `any(re.match(p,
url))` over the `/p/`, `/reel/` and `/tv/` patterns. -/
def is_valid_instagram_url (url : String) : Bool :=
  matchInstagramPattern "p" url ||
  matchInstagramPattern "reel" url ||
  matchInstagramPattern "tv" url

/-- Modelled from the spec and regex semantics: the declarative reading of
the three patterns.  A URL is of Instagram form when it decomposes as
`http[s]://[www.]instagram.com/<kind>/<shortcode char><anything>` with
`kind` one of `p`, `reel`, `tv`. -/
def InstagramUrlForm (url : String) : Prop :=
  ∃ (secure www : Bool) (kind : String) (c : Char) (rest : List Char),
    (kind = "p" ∨ kind = "reel" ∨ kind = "tv") ∧ isShortcodeChar c = true ∧
    url.data = "http".data ++ (if secure then ['s'] else []) ++ "://".data ++
      (if www then "www.".data else []) ++ "instagram.com/".data ++
      kind.data ++ '/' :: c :: rest

/-! ### CSV export (app_fixed.py line 358: df.to_csv(index=False)) -/

/-- The structural content of the exported CSV: the header line and the
data rows, in file order. -/
structure Csv where
  header : List String
  rows : List (String × ℚ)
  deriving DecidableEq, Repr

/-- Embedding of `df.to_csv(index=False)` for the two-column results frame: the header
names the two columns and each DataFrame row becomes one CSV row, in the
same order. -/
def to_csv (df : List Row) : Csv :=
  ⟨["Label Name", "Probability (%)"], df.map (fun r => (r.labelName, r.probabilityPercent))⟩

/-! ### Result rendering inside main (app_fixed.py lines 297-376) -/

def invalidResponseMsg (n : Nat) : String :=
  "Invalid service response: Expected 17 predictions, got " ++ toString n

def downloadFailedMsg : String :=
  "Failed to download Instagram video. The post might be private or the URL is incorrect."

def analysisFailedMsg : String :=
  "Failed to analyze the video. Please try again."

def unexpectedMainMsg : String :=
  "An unexpected error occurred while processing your video."

def noInputMsg : String :=
  "Please upload a video file or provide a valid Instagram URL first!"

/-- What the result section of `main` puts on the page: error messages,
the ranking table, the chart (top 10 rows), the summary tab, the CSV
download and the alert banner. -/
structure RenderOut where
  errors : List String
  table : Option (List Row)
  chart : Option (List Row)
  summaryShown : Bool
  csvDownload : Option Csv
  alert : Option AlertTier
  deriving DecidableEq, Repr

/-- A render that shows only error messages and no results. -/
def emptyRender (errs : List String) : RenderOut :=
  ⟨errs, none, none, false, none, none⟩

/-- Result handling (app_fixed.py lines 301-376): take `predictions` from the response with
`.get`, defaulting to the empty list; when the count is exactly 17, build the table,
alert, chart, summary and CSV; otherwise report the invalid count and show
nothing. -/
def renderResults (resp : ApiResponse) : RenderOut :=
  let predictions := resp.predictions.getD []
  if predictions.length = 17 then
    let df := process_predictions predictions
    let confidence := df.headI.probabilityPercent
    ⟨[], some df, some (df.take 10), true, some (to_csv df), some (alertTier confidence)⟩
  else
    emptyRender [invalidResponseMsg predictions.length]

/-! ### main processing flow (app_fixed.py lines 252-390) -/

/-- Model of `os.path.basename`: everything after the last slash. -/
def basename (p : String) : String :=
  ⟨(p.data.reverse.takeWhile (fun c => c ≠ '/')).reverse⟩

/-- The scenario for one click of the Analyze button: the widget state and
what the outside world (Instagram download, network, interpreter) does. -/
structure MainInput where
  uploadedFile : Option VideoFile
  instagramUrl : String
  downloadResult : Option String
  net : HttpRequest → NetworkOutcome
  processingExn : Bool

/-- Everything one run displays or changes: the render fields plus whether
the Instagram download was attempted, whether the `finally` block invoked
cleanup, and the resulting filesystem. -/
structure MainOutput where
  errors : List String
  table : Option (List Row)
  chart : Option (List Row)
  summaryShown : Bool
  csvDownload : Option Csv
  alert : Option AlertTier
  downloadAttempted : Bool
  cleanupCalled : Bool
  fs : FS

/-- The `finally` block (app_fixed.py lines 387-390): when a temp file was
recorded, run `cleanup_temp_files` on it, whatever the body did. -/
def finishRun (fs : FS) (temp : Option String) (da : Bool) (errs : List String)
    (ro : RenderOut) : MainOutput :=
  match temp with
  | some p => ⟨errs, ro.table, ro.chart, ro.summaryShown, ro.csvDownload, ro.alert,
      da, true, cleanup_temp_files fs p⟩
  | none => ⟨errs, ro.table, ro.chart, ro.summaryShown, ro.csvDownload, ro.alert,
      da, false, fs⟩

/-- The part of the `try` body after a video is in hand: send it, render
the outcome (an unexpected exception is caught by the `except` arm and
shown as a generic error), then run the `finally` block. -/
def afterVideo (inp : MainInput) (fs : FS) (temp : Option String) (da : Bool)
    (vf : VideoFile) : MainOutput :=
  let sr := send_video_to_api inp.net vf
  let ro :=
    match sr.response with
    | some resp =>
      if inp.processingExn then emptyRender [unexpectedMainMsg]
      else renderResults resp
    | none => emptyRender [analysisFailedMsg]
  finishRun fs temp da (sr.errors ++ ro.errors) ro

/-- One click of the Analyze button (app_fixed.py lines 252-390): reject
when neither source is present; on a valid Instagram URL download first
(recording the temp path for cleanup) and report a failed download;
otherwise send the uploaded file. -/
def mainAnalyze (inp : MainInput) (fs : FS) : MainOutput :=
  let hasFileUpload := inp.uploadedFile.isSome
  let hasInstagramUrl := (!(inp.instagramUrl == "")) && is_valid_instagram_url inp.instagramUrl
  if !hasFileUpload && !hasInstagramUrl then
    ⟨[noInputMsg], none, none, false, none, none, false, false, fs⟩
  else if hasInstagramUrl then
    match inp.downloadResult with
    | some p => afterVideo inp fs (some p) true ⟨basename p, "video/mp4", []⟩
    | none => ⟨[downloadFailedMsg], none, none, false, none, none, true, false, fs⟩
  else
    afterVideo inp fs none false (inp.uploadedFile.getD default)

/-! ### General lemmas about process_predictions -/

theorem process_predictions_perm (ps : List ℚ) :
    (process_predictions ps).Perm (predictionRows ps) :=
  List.perm_insertionSort RowGe (predictionRows ps)

theorem process_predictions_sorted (ps : List ℚ) :
    List.Sorted RowGe (process_predictions ps) :=
  List.sorted_insertionSort RowGe (predictionRows ps)

theorem predictionRows_length (ps : List ℚ) : (predictionRows ps).length = ps.length := by
  simp [predictionRows]

theorem process_predictions_length (ps : List ℚ) :
    (process_predictions ps).length = ps.length := by
  rw [(process_predictions_perm ps).length_eq, predictionRows_length]

/-! ### Claim theorems -/

/-- C1: For every 17-element list of probabilities, `process_predictions`
returns a table of (label, probability-percentage) pairs that is a
permutation of the pairs `(LABEL_MAP[i], predictions[i] * 100)`, sorted in
descending order by the percentage column, and every index below 17 is
labelled by the static table. -/
theorem C1_process_predictions_ranking (ps : List ℚ) (_h : ps.length = 17) :
    (process_predictions ps).Perm
      (ps.enum.map (fun ip => ⟨labelFor ip.1, ip.2 * 100⟩)) ∧
    List.Sorted RowGe (process_predictions ps) ∧
    (∀ i < 17, (LABEL_MAP i).isSome = true ∧ labelFor i = (LABEL_MAP i).getD "") := by
  refine ⟨process_predictions_perm ps, process_predictions_sorted ps, ?_⟩
  decide

def samplePredictions : List ℚ :=
  [1/10, 9/10, 1/2, 0, 1, 3/10, 7/10, 2/10, 6/10, 4/10, 8/10, 1/4, 3/4, 1/8, 5/8, 3/8, 7/8]

theorem C1_witness :
    samplePredictions.length = 17 ∧
    ((process_predictions samplePredictions).Perm
      (samplePredictions.enum.map (fun ip => ⟨labelFor ip.1, ip.2 * 100⟩)) ∧
    List.Sorted RowGe (process_predictions samplePredictions) ∧
    (∀ i < 17, (LABEL_MAP i).isSome = true ∧ labelFor i = (LABEL_MAP i).getD "")) :=
  ⟨by decide, C1_process_predictions_ranking samplePredictions (by decide)⟩

/-- C2: the alert tier is a pure function of the top probability
percentage: above 70 is high, in (40, 70] medium, at or below 40 low; in
particular exactly 70 gives medium and exactly 40 gives low. -/
theorem C2_alert_tier_thresholds (c : ℚ) :
    (alertTier c = .high ↔ 70 < c) ∧
    (alertTier c = .medium ↔ 40 < c ∧ c ≤ 70) ∧
    (alertTier c = .low ↔ c ≤ 40) ∧
    alertTier 70 = .medium ∧ alertTier 40 = .low := by
  unfold alertTier HIGH_CONFIDENCE_THRESHOLD MEDIUM_CONFIDENCE_THRESHOLD
  refine ⟨?_, ?_, ?_, by norm_num, by norm_num⟩ <;>
    split_ifs with h1 h2 <;> simp <;>
      first
        | linarith
        | (intro hx; linarith)
        | (constructor <;> linarith)

theorem C2_witness : (70 < (85 : ℚ)) ∧ alertTier 85 = .high :=
  ⟨by norm_num, ((C2_alert_tier_thresholds 85).1).mpr (by norm_num)⟩

/-- C9: `process_predictions` is total on any list of floats: the output
is a permutation of one row per input element with the probability scaled
by 100, and any index with no `LABEL_MAP` entry falls back to the
`UNKNOWN_{idx}` label. -/
theorem C9_process_predictions_total (ps : List ℚ) :
    (process_predictions ps).length = ps.length ∧
    (process_predictions ps).Perm
      (ps.enum.map (fun ip => ⟨labelFor ip.1, ip.2 * 100⟩)) ∧
    (∀ i, 17 ≤ i → LABEL_MAP i = none ∧ labelFor i = "UNKNOWN_" ++ toString i) := by
  refine ⟨process_predictions_length ps, process_predictions_perm ps, ?_⟩
  intro i hi
  obtain ⟨n, rfl⟩ := Nat.exists_eq_add_of_le' hi
  exact ⟨rfl, rfl⟩

theorem C9_witness :
    (17 ≤ 23) ∧ (LABEL_MAP 23 = none ∧ labelFor 23 = "UNKNOWN_" ++ toString 23) :=
  ⟨by decide, (C9_process_predictions_total []).2.2 23 (by decide)⟩

/-- C6: for every accepted 17-element prediction vector, the exported CSV
has exactly the headers "Label Name" and "Probability (%)", one row per
category (17 rows), its row order is the ranking order (descending by
probability), and the success render offers exactly this CSV. -/
theorem C6_csv_export (ps : List ℚ) (h : ps.length = 17) :
    (to_csv (process_predictions ps)).header = ["Label Name", "Probability (%)"] ∧
    (to_csv (process_predictions ps)).rows.length = 17 ∧
    (to_csv (process_predictions ps)).rows =
      (process_predictions ps).map (fun r => (r.labelName, r.probabilityPercent)) ∧
    List.Sorted (fun a b : String × ℚ => b.2 ≤ a.2) (to_csv (process_predictions ps)).rows ∧
    (∀ resp : ApiResponse, resp.predictions = some ps →
      (renderResults resp).csvDownload = some (to_csv (process_predictions ps))) := by
  refine ⟨rfl, ?_, rfl, ?_, ?_⟩
  · simp [to_csv, process_predictions_length, h]
  · exact List.Pairwise.map _ (fun a b hab => hab) (process_predictions_sorted ps)
  · intro resp hresp
    simp [renderResults, hresp, h]

theorem C6_witness :
    samplePredictions.length = 17 ∧
    (to_csv (process_predictions samplePredictions)).header =
      ["Label Name", "Probability (%)"] ∧
    (to_csv (process_predictions samplePredictions)).rows.length = 17 :=
  ⟨by decide, (C6_csv_export samplePredictions (by decide)).1,
    (C6_csv_export samplePredictions (by decide)).2.1⟩

theorem send_video_to_api_requests (net : HttpRequest → NetworkOutcome) (vf : VideoFile) :
    (send_video_to_api net vf).requests = [apiRequest vf] := by
  cases h : net (apiRequest vf) with
  | reply code body =>
    simp only [send_video_to_api, h]
    split_ifs <;> cases body <;> rfl
  | connectionError => simp [send_video_to_api, h]
  | timeout => simp [send_video_to_api, h]
  | otherFailure => simp [send_video_to_api, h]

/-- C3: every service response whose predictions list has length other
than 17 is rejected: the invalid-response error names the received count
and no table, chart, summary or CSV is produced; end to end, the whole run
shows only that error. -/
theorem C3_wrong_count_rejected :
    (∀ (resp : ApiResponse) (n : Nat), (resp.predictions.getD []).length = n → n ≠ 17 →
      renderResults resp = emptyRender [invalidResponseMsg n]) ∧
    (∀ (inp : MainInput) (fs : FS) (vf : VideoFile) (resp : ApiResponse),
      inp.uploadedFile = some vf → inp.instagramUrl = "" → inp.processingExn = false →
      inp.net = (fun _ => NetworkOutcome.reply 200 (some resp)) →
      (resp.predictions.getD []).length ≠ 17 →
      mainAnalyze inp fs =
        ⟨[invalidResponseMsg (resp.predictions.getD []).length],
          none, none, false, none, none, false, false, fs⟩) := by
  constructor
  · intro resp n hn h17
    subst hn
    simp [renderResults, h17]
  · intro inp fs vf resp hup hurl hexn hnet h17
    simp [mainAnalyze, afterVideo, send_video_to_api, finishRun, renderResults,
      emptyRender, hup, hurl, hexn, hnet, h17]

def c3Net : HttpRequest → NetworkOutcome :=
  fun _ => NetworkOutcome.reply 200 (some ⟨some []⟩)

def sampleVideoFile : VideoFile := ⟨"clip.mp4", "video/mp4", []⟩

def c3Input : MainInput := ⟨some sampleVideoFile, "", none, c3Net, false⟩

theorem C3_witness :
    c3Input.net = (fun _ => NetworkOutcome.reply 200 (some ⟨some []⟩)) ∧
    (((⟨some []⟩ : ApiResponse).predictions.getD []).length ≠ 17) ∧
    mainAnalyze c3Input ⟨[], []⟩ =
      ⟨[invalidResponseMsg ((( ⟨some []⟩ : ApiResponse).predictions.getD []).length)],
        none, none, false, none, none, false, false, ⟨[], []⟩⟩ :=
  ⟨rfl, by decide,
    C3_wrong_count_rejected.2 c3Input ⟨[], []⟩ sampleVideoFile ⟨some []⟩
      rfl rfl rfl rfl (by decide)⟩

/-- C8: a 200 response whose JSON object has no `predictions` field is
read as an empty list by the defaulted `.get` and rejected by the
17-count check with count 0, producing no results. -/
theorem C8_missing_predictions_field :
    (∀ resp : ApiResponse, resp.predictions = none →
      resp.predictions.getD [] = [] ∧
      renderResults resp = emptyRender [invalidResponseMsg 0]) ∧
    (∀ (inp : MainInput) (fs : FS) (vf : VideoFile),
      inp.uploadedFile = some vf → inp.instagramUrl = "" → inp.processingExn = false →
      inp.net = (fun _ => NetworkOutcome.reply 200 (some ⟨none⟩)) →
      mainAnalyze inp fs =
        ⟨[invalidResponseMsg 0], none, none, false, none, none, false, false, fs⟩) := by
  constructor
  · intro resp h
    refine ⟨by simp [h], ?_⟩
    simp [renderResults, h, invalidResponseMsg]
  · intro inp fs vf hup hurl hexn hnet
    simp [mainAnalyze, afterVideo, send_video_to_api, finishRun, renderResults,
      emptyRender, invalidResponseMsg, hup, hurl, hexn, hnet]

def c8Input : MainInput :=
  ⟨some sampleVideoFile, "", none, fun _ => NetworkOutcome.reply 200 (some ⟨none⟩), false⟩

theorem C8_witness :
    c8Input.net = (fun _ => NetworkOutcome.reply 200 (some ⟨none⟩)) ∧
    mainAnalyze c8Input ⟨[], []⟩ =
      ⟨[invalidResponseMsg 0], none, none, false, none, none, false, false, ⟨[], []⟩⟩ :=
  ⟨rfl, C8_missing_predictions_field.2 c8Input ⟨[], []⟩ sampleVideoFile rfl rfl rfl rfl⟩

/-- C4: `send_video_to_api` maps connection failure, timeout and any other
unexpected error to three pairwise distinct user-facing messages, returns
`None` in every such case, and issues exactly one request (no retry). -/
theorem C4_send_failure_kinds (net : HttpRequest → NetworkOutcome) (vf : VideoFile) :
    (net (apiRequest vf) = .connectionError →
      send_video_to_api net vf = ⟨none, [connectionErrorMsg], [apiRequest vf]⟩) ∧
    (net (apiRequest vf) = .timeout →
      send_video_to_api net vf = ⟨none, [timeoutErrorMsg], [apiRequest vf]⟩) ∧
    (net (apiRequest vf) = .otherFailure →
      send_video_to_api net vf = ⟨none, [unexpectedErrorMsg], [apiRequest vf]⟩) ∧
    connectionErrorMsg ≠ timeoutErrorMsg ∧
    connectionErrorMsg ≠ unexpectedErrorMsg ∧
    timeoutErrorMsg ≠ unexpectedErrorMsg ∧
    (send_video_to_api net vf).requests = [apiRequest vf] := by
  refine ⟨?_, ?_, ?_, by decide, by decide, by decide,
    send_video_to_api_requests net vf⟩ <;>
    { intro h; simp [send_video_to_api, h] }

def c4Net : HttpRequest → NetworkOutcome := fun _ => NetworkOutcome.connectionError

theorem C4_witness :
    c4Net (apiRequest default) = NetworkOutcome.connectionError ∧
    send_video_to_api c4Net default = ⟨none, [connectionErrorMsg], [apiRequest default]⟩ :=
  ⟨rfl, (C4_send_failure_kinds c4Net default).1 rfl⟩

/-- C5: `send_video_to_api` issues exactly one POST to the fixed
`{API_ENDPOINT}/detect` endpoint with multipart field `file` and the
bounded `API_TIMEOUT`; every non-200 status yields the service error
message and `None`, with no retry. -/
theorem C5_single_post_and_non200 (net : HttpRequest → NetworkOutcome) (vf : VideoFile) :
    (send_video_to_api net vf).requests =
      [⟨API_ENDPOINT ++ "/detect", "file", vf.name, API_TIMEOUT⟩] ∧
    API_TIMEOUT = 180 ∧
    API_ENDPOINT ++ "/detect" = "https://e384961c5981.ngrok-free.app/detect" ∧
    (∀ (code : Nat) (body : Option ApiResponse),
      net (apiRequest vf) = .reply code body → code ≠ 200 →
      send_video_to_api net vf = ⟨none, [serviceErrorMsg code], [apiRequest vf]⟩) := by
  refine ⟨send_video_to_api_requests net vf, rfl, rfl, ?_⟩
  intro code body h hcode
  simp only [send_video_to_api, h]
  rw [if_neg hcode]

def c5Net : HttpRequest → NetworkOutcome := fun _ => NetworkOutcome.reply 500 none

theorem C5_witness :
    c5Net (apiRequest default) = NetworkOutcome.reply 500 none ∧ (500 : Nat) ≠ 200 ∧
    send_video_to_api c5Net default = ⟨none, [serviceErrorMsg 500], [apiRequest default]⟩ :=
  ⟨rfl, by decide,
    (C5_single_post_and_non200 c5Net default).2.2.2 500 none rfl (by decide)⟩

/-- C7: on the Instagram path, whenever a temporary file was downloaded,
the `finally` block runs `cleanup_temp_files` on it whatever the rest of
the run did, and the cleanup body never raises (its attempt always
returns `ok`, which is what the `except: pass` wrapper keeps). -/
theorem C7_cleanup_always_runs :
    (∀ (inp : MainInput) (fs : FS) (p : String),
      ((!(inp.instagramUrl == "")) && is_valid_instagram_url inp.instagramUrl) = true →
      inp.downloadResult = some p →
      (mainAnalyze inp fs).cleanupCalled = true ∧
      (mainAnalyze inp fs).fs = cleanup_temp_files fs p) ∧
    (∀ (fs : FS) (q : String), ∃ fs2,
      cleanupAttempt fs q = Except.ok fs2 ∧ cleanup_temp_files fs q = fs2) := by
  constructor
  · intro inp fs p hb hdl
    have hma : mainAnalyze inp fs =
        afterVideo inp fs (some p) true ⟨basename p, "video/mp4", []⟩ := by
      simp [mainAnalyze, hb, hdl]
    rw [hma]
    exact ⟨rfl, rfl⟩
  · intro fs q
    have hok : ∃ fs2, cleanupAttempt fs q = Except.ok fs2 := by
      unfold cleanupAttempt
      split_ifs with h
      · have hrm : osRemove fs q = .ok ⟨fs.files.erase q, fs.dirs⟩ := by
          simp [osRemove, h.2]
        rw [hrm]
        dsimp only
        split_ifs with h2
        · exact ⟨⟨fs.files.erase q, fs.dirs.erase (dirname q)⟩, by simp [osRmdir, h2]⟩
        · exact ⟨_, rfl⟩
      · exact ⟨fs, rfl⟩
    obtain ⟨fs2, hfs2⟩ := hok
    exact ⟨fs2, hfs2, by simp [cleanup_temp_files, hfs2]⟩

def c7Input : MainInput :=
  ⟨none, "https://www.instagram.com/p/ABC", some "/tmp/ig/instagram_video.mp4",
    fun _ => NetworkOutcome.connectionError, false⟩

def c7FS : FS := ⟨["/tmp/ig/instagram_video.mp4"], ["/tmp/ig"]⟩

theorem C7_witness :
    ((!(c7Input.instagramUrl == "")) && is_valid_instagram_url c7Input.instagramUrl) = true ∧
    c7Input.downloadResult = some "/tmp/ig/instagram_video.mp4" ∧
    (mainAnalyze c7Input c7FS).cleanupCalled = true ∧
    (mainAnalyze c7Input c7FS).fs = cleanup_temp_files c7FS "/tmp/ig/instagram_video.mp4" := by
  refine ⟨by decide, rfl, ?_⟩
  exact C7_cleanup_always_runs.1 c7Input c7FS "/tmp/ig/instagram_video.mp4" (by decide) rfl

/-! ### Characterization of the Instagram URL matcher -/

theorem dropLit_eq_some {p cs r : List Char} : dropLit p cs = some r ↔ cs = p ++ r := by
  induction p generalizing cs with
  | nil => simp [dropLit]
  | cons a ps ih =>
    cases cs with
    | nil => simp [dropLit]
    | cons c cs2 =>
      by_cases hc : c = a
      · subst hc
        simp [dropLit, ih]
      · simp [dropLit, hc]

theorem dropScheme_eq_some {cs r : List Char} :
    dropScheme cs = some r ↔
      ∃ secure : Bool,
        cs = "http".data ++ (if secure then ['s'] else []) ++ "://".data ++ r := by
  constructor
  · intro h
    unfold dropScheme at h
    split at h
    · exact absurd h (by simp)
    · rename_i cs1 heq1
      split at h
      · rename_i cs2 heq2
        split at h
        · rename_i r2 heq3
          cases h
          refine ⟨true, ?_⟩
          rw [dropLit_eq_some.mp heq1, dropLit_eq_some.mp heq2, dropLit_eq_some.mp heq3]
          simp
        · exfalso
          have h1 := dropLit_eq_some.mp heq2
          have h2 := dropLit_eq_some.mp h
          rw [h1] at h2
          simp at h2
      · refine ⟨false, ?_⟩
        rw [dropLit_eq_some.mp heq1, dropLit_eq_some.mp h]
        simp
  · rintro ⟨secure, rfl⟩
    cases secure with
    | false =>
      unfold dropScheme
      rw [show dropLit "http".data
            ("http".data ++ (if false then ['s'] else []) ++ "://".data ++ r) =
          some ("://".data ++ r) from dropLit_eq_some.mpr (by simp)]
      rfl
    | true =>
      unfold dropScheme
      rw [show dropLit "http".data
            ("http".data ++ (if true then ['s'] else []) ++ "://".data ++ r) =
          some ('s' :: ("://".data ++ r)) from dropLit_eq_some.mpr (by simp)]
      rfl

theorem matchHostPath_eq_true {kind : String} {cs : List Char} :
    matchHostPath kind cs = true ↔
      ∃ c rest, isShortcodeChar c = true ∧
        cs = ("instagram.com/" ++ kind ++ "/").data ++ c :: rest := by
  constructor
  · intro h
    unfold matchHostPath at h
    cases heq : dropLit ("instagram.com/" ++ kind ++ "/").data cs with
    | none => rw [heq] at h; simp at h
    | some tail =>
      rw [heq] at h
      cases tail with
      | nil => simp at h
      | cons c rest => exact ⟨c, rest, h, dropLit_eq_some.mp heq⟩
  · rintro ⟨c, rest, hc, rfl⟩
    unfold matchHostPath
    rw [dropLit_eq_some.mpr rfl]
    exact hc

theorem matchInstagramPattern_eq_true {kind : String} {url : String} :
    matchInstagramPattern kind url = true ↔
      ∃ (secure www : Bool) (c : Char) (rest : List Char),
        isShortcodeChar c = true ∧
        url.data = "http".data ++ (if secure then ['s'] else []) ++ "://".data ++
          (if www then "www.".data else []) ++
          ("instagram.com/" ++ kind ++ "/").data ++ c :: rest := by
  constructor
  · intro h
    unfold matchInstagramPattern at h
    cases hs : dropScheme url.data with
    | none => rw [hs] at h; simp at h
    | some cs =>
      rw [hs] at h
      obtain ⟨secure, hcs⟩ := dropScheme_eq_some.mp hs
      rw [Bool.or_eq_true] at h
      rcases h with h | h
      · cases hw : dropLit "www.".data cs with
        | none => rw [hw] at h; simp at h
        | some cs2 =>
          rw [hw] at h
          obtain ⟨c, rest, hc, rfl⟩ := matchHostPath_eq_true.mp h
          refine ⟨secure, true, c, rest, hc, ?_⟩
          rw [hcs, dropLit_eq_some.mp hw]
          simp [List.append_assoc]
      · obtain ⟨c, rest, hc, rfl⟩ := matchHostPath_eq_true.mp h
        refine ⟨secure, false, c, rest, hc, ?_⟩
        rw [hcs]
        simp [List.append_assoc]
  · rintro ⟨secure, www, c, rest, hc, hurl⟩
    unfold matchInstagramPattern
    have hds : dropScheme url.data =
        some ((if www then "www.".data else []) ++
          ("instagram.com/" ++ kind ++ "/").data ++ c :: rest) := by
      rw [dropScheme_eq_some]
      exact ⟨secure, by rw [hurl]; simp [List.append_assoc]⟩
    rw [hds]
    cases www with
    | true =>
      rw [Bool.or_eq_true]
      left
      rw [show dropLit "www.".data
            ((if true then "www.".data else []) ++
              ("instagram.com/" ++ kind ++ "/").data ++ c :: rest) =
          some (("instagram.com/" ++ kind ++ "/").data ++ c :: rest) from
        dropLit_eq_some.mpr (by simp)]
      exact matchHostPath_eq_true.mpr ⟨c, rest, hc, rfl⟩
    | false =>
      rw [Bool.or_eq_true]
      right
      exact matchHostPath_eq_true.mpr ⟨c, rest, hc, by simp⟩

theorem slash_data : "/".data = ['/'] := rfl

theorem is_valid_instagram_url_iff (url : String) :
    is_valid_instagram_url url = true ↔ InstagramUrlForm url := by
  constructor
  · intro h
    unfold is_valid_instagram_url at h
    rw [Bool.or_eq_true, Bool.or_eq_true] at h
    rcases h with (h | h) | h <;>
      obtain ⟨secure, www, c, rest, hc, hurl⟩ := matchInstagramPattern_eq_true.mp h
    · exact ⟨secure, www, "p", c, rest, Or.inl rfl, hc,
        by rw [hurl]; simp [String.data_append, slash_data, List.append_assoc]⟩
    · exact ⟨secure, www, "reel", c, rest, Or.inr (Or.inl rfl), hc,
        by rw [hurl]; simp [String.data_append, slash_data, List.append_assoc]⟩
    · exact ⟨secure, www, "tv", c, rest, Or.inr (Or.inr rfl), hc,
        by rw [hurl]; simp [String.data_append, slash_data, List.append_assoc]⟩
  · rintro ⟨secure, www, kind, c, rest, hkind, hc, hurl⟩
    unfold is_valid_instagram_url
    rw [Bool.or_eq_true, Bool.or_eq_true]
    rcases hkind with rfl | rfl | rfl
    · exact Or.inl (Or.inl (matchInstagramPattern_eq_true.mpr
        ⟨secure, www, c, rest, hc,
          by rw [hurl]; simp [String.data_append, slash_data, List.append_assoc]⟩))
    · exact Or.inl (Or.inr (matchInstagramPattern_eq_true.mpr
        ⟨secure, www, c, rest, hc,
          by rw [hurl]; simp [String.data_append, slash_data, List.append_assoc]⟩))
    · exact Or.inr (matchInstagramPattern_eq_true.mpr
        ⟨secure, www, c, rest, hc,
          by rw [hurl]; simp [String.data_append, slash_data, List.append_assoc]⟩)

/-- C10: `is_valid_instagram_url` accepts exactly the strings that start
with an http or https instagram.com URL of the `/p/`, `/reel/` or `/tv/`
shortcode forms, and the Instagram download path of one run is entered
only when the provided URL satisfies this predicate. -/
theorem C10_instagram_url_gate :
    (∀ url : String, is_valid_instagram_url url = true ↔ InstagramUrlForm url) ∧
    (∀ (inp : MainInput) (fs : FS),
      (mainAnalyze inp fs).downloadAttempted = true →
      is_valid_instagram_url inp.instagramUrl = true) := by
  refine ⟨is_valid_instagram_url_iff, ?_⟩
  intro inp fs h
  by_cases hb : ((!(inp.instagramUrl == "")) && is_valid_instagram_url inp.instagramUrl) = true
  · rw [Bool.and_eq_true] at hb
    exact hb.2
  · exfalso
    have hb2 : ((!(inp.instagramUrl == "")) && is_valid_instagram_url inp.instagramUrl) = false :=
      Bool.eq_false_iff.mpr hb
    cases hu : inp.uploadedFile with
    | none =>
      have hma : mainAnalyze inp fs =
          ⟨[noInputMsg], none, none, false, none, none, false, false, fs⟩ := by
        simp [mainAnalyze, hb2, hu]
      rw [hma] at h
      exact Bool.false_ne_true h
    | some vf =>
      have hma : mainAnalyze inp fs = afterVideo inp fs none false vf := by
        simp [mainAnalyze, hb2, hu]
      rw [hma] at h
      exact Bool.false_ne_true h

theorem C10_witness :
    is_valid_instagram_url "https://www.instagram.com/reel/Abc-123" = true ∧
    InstagramUrlForm "https://www.instagram.com/reel/Abc-123" :=
  ⟨by decide,
    (C10_instagram_url_gate.1 "https://www.instagram.com/reel/Abc-123").mp (by decide)⟩

end Deepfake
